import Mathlib

/-!
Shallow embedding of the model-dispatch, benchmarking and transcription
core of the Transcription-Creating-Processing backend
(`src/backend/app/services/...`), together with theorems settling the
frozen claims about it.

Conventions of the embedding:
* Python `Optional[str]` becomes `Option String`; the 4-tuple
  `(success, text, usage, error)` returned by every LLM adapter becomes the
  structure `GenerationResult`.
* External effects (HTTP calls, the OpenAI SDK, `whisper.load_model`,
  `model.transcribe`, the filesystem) are abstracted as explicit outcome
  parameters / functions handed to the embedded code, so that the embedded
  control flow is exactly the Python control flow over those outcomes.
* Python string helpers (`str.strip`, `str.split`, `str.startswith`,
  `float(...)`, `s[:n]`, `pathlib.Path(...).suffix`) are modelled by
  executable Lean functions over the character list, restricted to the
  ASCII behaviour the service exercises.
-/

/-- Python whitespace characters recognised by `str.strip()` (ASCII subset). -/
def pySpace (c : Char) : Bool :=
  c = ' ' || c = '\t' || c = '\n' || c = '\r' || c = '\x0b' || c = '\x0c'

/-- `str.strip()` on a character list: drop whitespace at both ends. -/
def pyStripList (cs : List Char) : List Char :=
  ((cs.dropWhile pySpace).reverse.dropWhile pySpace).reverse

/-- Python `s.strip()`. -/
def pyStrip (s : String) : String :=
  String.mk (pyStripList s.data)

/-- Python `s.startswith(p)`. -/
def pyStartsWith (s p : String) : Bool :=
  p.data.isPrefixOf s.data

/-- Python `s[:n]` (first `n` code points). -/
def pyTake (n : Nat) (s : String) : String :=
  String.mk (s.data.take n)

/-- Python `sub in s` (substring containment) on character lists. -/
def containsSub (s pat : List Char) : Bool :=
  (List.range (s.length + 1)).any (fun i => pat.isPrefixOf (s.drop i))

/-- Python `s.lower()` restricted to ASCII. -/
def pyLower (s : String) : String :=
  String.mk (s.data.map Char.toLower)

/-- Split a character list at every occurrence of `sep`, keeping empty
pieces (Python `str.split(sep)` for a one-character separator); `acc`
holds the current piece reversed. -/
def splitOnCharAux (sep : Char) : List Char → List Char → List (List Char)
  | [], acc => [acc.reverse]
  | c :: cs, acc =>
    if c = sep then acc.reverse :: splitOnCharAux sep cs []
    else splitOnCharAux sep cs (c :: acc)

/-- Python `s.split(sep)` for a one-character separator. -/
def pySplit (s : String) (sep : Char) : List String :=
  (splitOnCharAux sep s.data []).map String.mk

/-- Render an `Option String` the way a Python f-string renders the value:
`None` prints as `"None"`, a string prints verbatim. -/
def pyShowOpt : Option String → String
  | none => "None"
  | some s => s

/-- Token usage dictionary built by the LLM adapters:
`{'input_tokens': ..., 'output_tokens': ...}` with possibly-`None` fields. -/
structure TokenUsage where
  input_tokens : Option Nat
  output_tokens : Option Nat
deriving DecidableEq, Repr

/-- The uniform adapter result `(success, generated_text, token_usage,
error_message)` returned by `generate_with_openai` / `generate_with_ollama`
and the dispatcher `generate`. -/
structure GenerationResult where
  success : Bool
  text : Option String
  usage : Option TokenUsage
  error : Option String
deriving DecidableEq, Repr

/-- One choice of an OpenAI chat completion; `message.content` is nullable. -/
structure OpenAIChoice where
  content : Option String
deriving DecidableEq, Repr

/-- The slice of an OpenAI chat-completion response read by
`generate_with_openai`: the choice list and the (possibly absent) usage
object with its two token counters. -/
structure OpenAIResponse where
  choices : List OpenAIChoice
  usage : Option (Option Nat × Option Nat)
deriving DecidableEq, Repr

/-- Outcome of the OpenAI SDK call `client.chat.completions.create(...)`:
either a response object or a raised exception with message `msg`. -/
inductive OpenAICallOutcome
  | resp (r : OpenAIResponse)
  | exn (msg : String)
deriving DecidableEq, Repr

/-- `generate_with_openai` (src/backend/app/services/llm/openai_service.py,
lines 8-61). `apiKeyConfigured` is the truthiness of
`settings.openai_api_key`, `pkgInstalled` whether `import openai` succeeds,
`outcome` the result of the SDK call. -/
def generate_with_openai (apiKeyConfigured pkgInstalled : Bool)
    (outcome : OpenAICallOutcome) : GenerationResult :=
  if !apiKeyConfigured then
    ⟨false, none, none, some "OpenAI API key not configured"⟩
  else if !pkgInstalled then
    ⟨false, none, none, some "OpenAI package not installed"⟩
  else
    match outcome with
    | .exn msg => ⟨false, none, none, some msg⟩
    | .resp r =>
      let content : Option String :=
        match r.choices.head? with
        | some c => c.content
        | none => none
      let usage : TokenUsage :=
        match r.usage with
        | some (p, c) => ⟨p, c⟩
        | none => ⟨none, none⟩
      ⟨true, content, some usage, none⟩

/-- Outcome of the Ollama HTTP POST `/api/generate`:
connection error, other raised exception, or an HTTP response carrying a
status code and the JSON fields the adapter reads.  `response?` models
`data.get('response', '')`: `none` = key absent, `some v` = key present
with value `v` (which may itself be JSON `null` = `none`). -/
inductive OllamaCallOutcome
  | connectError
  | exn (msg : String)
  | httpResp (status : Nat) (response? : Option (Option String))
      (promptEvalCount evalCount : Option Nat)
deriving DecidableEq, Repr

/-- `generate_with_ollama` (src/backend/app/services/llm/ollama_service.py,
lines 9-68).  `host` is `settings.ollama_host`. -/
def generate_with_ollama (host : String)
    (outcome : OllamaCallOutcome) : GenerationResult :=
  match outcome with
  | .connectError =>
    ⟨false, none, none, some ("Could not connect to Ollama at " ++ host)⟩
  | .exn msg => ⟨false, none, none, some msg⟩
  | .httpResp status response? pec ec =>
    if status ≠ 200 then
      ⟨false, none, none, some ("Ollama returned status " ++ toString status)⟩
    else
      let content : Option String :=
        match response? with
        | none => some ""
        | some v => v
      ⟨true, content, some ⟨pec, ec⟩, none⟩

/-- Backend-and-model entry of the static `LLM_MODELS` table. -/
structure LLMModelConfig where
  backend : String
  model : String
deriving DecidableEq, Repr

/-- The static `LLM_MODELS` table
(src/backend/app/services/llm/llm_service.py, lines 12-23). -/
def LLM_MODELS : List (String × LLMModelConfig) :=
  [ ("gpt-4", ⟨"openai", "gpt-4"⟩),
    ("gpt-4-turbo", ⟨"openai", "gpt-4-turbo"⟩),
    ("gpt-3.5-turbo", ⟨"openai", "gpt-3.5-turbo"⟩),
    ("gemini-pro", ⟨"gemini", "gemini-pro"⟩),
    ("gemini-1.5-pro", ⟨"gemini", "gemini-1.5-pro"⟩),
    ("llama2", ⟨"ollama", "llama2"⟩),
    ("llama2:13b", ⟨"ollama", "llama2:13b"⟩),
    ("mistral", ⟨"ollama", "mistral"⟩),
    ("mixtral", ⟨"ollama", "mixtral"⟩),
    ("codellama", ⟨"ollama", "codellama"⟩) ]

/-- `LLM_MODELS.get(model)`. -/
def lookupLLM (model : String) : Option LLMModelConfig :=
  (LLM_MODELS.find? (fun e => e.1 = model)).map (·.2)

/-- The three LLM backend adapters, abstracted as functions of
`(prompt, model, system_prompt, max_tokens, temperature)`; the dispatcher
only routes to them, so their internals stay opaque here. -/
structure LLMAdapters where
  openai : String → String → Option String → Nat → Rat → GenerationResult
  gemini : String → String → Option String → Nat → Rat → GenerationResult
  ollama : String → String → Option String → Nat → Rat → GenerationResult

/-- Dispatcher `generate`
(src/backend/app/services/llm/llm_service.py, lines 26-70): table lookup,
fallback to Ollama with the raw identifier when the lookup misses, else
routing on the configured backend string. -/
def llm_generate (A : LLMAdapters) (prompt model : String)
    (system_prompt : Option String) (max_tokens : Nat) (temperature : Rat) :
    GenerationResult :=
  match lookupLLM model with
  | none => A.ollama prompt model system_prompt max_tokens temperature
  | some cfg =>
    if cfg.backend = "openai" then
      A.openai prompt cfg.model system_prompt max_tokens temperature
    else if cfg.backend = "gemini" then
      A.gemini prompt cfg.model system_prompt max_tokens temperature
    else if cfg.backend = "ollama" then
      A.ollama prompt cfg.model system_prompt max_tokens temperature
    else
      ⟨false, none, none, some ("Unknown backend: " ++ cfg.backend)⟩

/-- Value classes produced by Python `float(...)`: finite rationals (every
decimal literal is one), infinities and NaN. -/
inductive PyFloat
  | finite (q : Rat)
  | inf
  | neginf
  | nan
deriving DecidableEq, Repr

/-- Continuation of a digit run whose previous character was a digit: more
digits, or a single underscore that must be followed directly by another
digit (PEP 515: an underscore is legal only between two digits); returns
the digits (underscores removed) and the unconsumed rest. -/
def digitsUGo : List Char → List Char × List Char
  | [] => ([], [])
  | c :: cs =>
    if c.isDigit then
      let (a, r) := digitsUGo cs
      (c :: a, r)
    else if c = '_' then
      match cs with
      | [] => ([], ['_'])
      | d :: cs2 =>
        if d.isDigit then
          let (a, r) := digitsUGo cs2
          (d :: a, r)
        else ([], '_' :: d :: cs2)
    else ([], c :: cs)

/-- Consume a leading run of decimal digits in which single underscores may
stand between two digits (Python numeric-literal rule): the run must begin
with a digit, so a leading underscore consumes nothing. -/
def digitsU : List Char → List Char × List Char
  | [] => ([], [])
  | c :: cs =>
    if c.isDigit then
      let (a, r) := digitsUGo cs
      (c :: a, r)
    else ([], c :: cs)

/-- Numeric value of a digit list. -/
def digitsVal (ds : List Char) : Nat :=
  ds.foldl (fun n c => n * 10 + (c.toNat - '0'.toNat)) 0

/-- Optional leading sign; returns (isNegative, rest). -/
def parseSign : List Char → Bool × List Char
  | '+' :: cs => (false, cs)
  | '-' :: cs => (true, cs)
  | cs => (false, cs)

/-- Python `float(s)` on ASCII input: `none` when Python would raise
`ValueError`, otherwise the parsed value.  Accepts optional sign,
`inf`/`infinity`/`nan` (case-insensitive), and decimal literals with
optional fraction and exponent, underscores between digits. -/
def pyFloat? (s : String) : Option PyFloat :=
  let cs0 := pyStripList s.data
  let (neg, cs) := parseSign cs0
  let lowered := cs.map Char.toLower
  if lowered = "inf".data ∨ lowered = "infinity".data then
    some (if neg then .neginf else .inf)
  else if lowered = "nan".data then
    some .nan
  else
    let (ip, r1) := digitsU cs
    let (fp, r2) :=
      match r1 with
      | '.' :: r => digitsU r
      | _ => ([], r1)
    if ip = [] ∧ fp = [] then none
    else
      let mantissa : Int := Int.ofNat (digitsVal (ip ++ fp))
      let checkExp : Option Int :=
        match r2 with
        | [] => some 0
        | 'e' :: r3 =>
          let (eneg, r4) := parseSign r3
          let (ep, r5) := digitsU r4
          if ep = [] ∨ r5 ≠ [] then none
          else some (if eneg then -(Int.ofNat (digitsVal ep)) else Int.ofNat (digitsVal ep))
        | 'E' :: r3 =>
          let (eneg, r4) := parseSign r3
          let (ep, r5) := digitsU r4
          if ep = [] ∨ r5 ≠ [] then none
          else some (if eneg then -(Int.ofNat (digitsVal ep)) else Int.ofNat (digitsVal ep))
        | _ => none
      match checkExp with
      | none => none
      | some e =>
        let e10 : Int := e - Int.ofNat fp.length
        let mag : Rat :=
          if e10 ≥ 0 then ((mantissa * 10 ^ e10.toNat : Int) : Rat)
          else mkRat mantissa (10 ^ (-e10).toNat)
        some (.finite (if neg then -mag else mag))

/-- Python `line.split(':')[1]` (defaulting to `""`, unreachable when the
line starts with a marker ending in a colon). -/
def afterColon1 (l : String) : String :=
  (pySplit l ':').getD 1 ""

/-- Python `':'.join(line.split(':')[1:])`: everything after the first
colon. -/
def afterColonRest (l : String) : String :=
  String.intercalate ":" ((pySplit l ':').drop 1)

/-- Loop state of `parse_judge_response`: the four result fields under
construction, the accumulated reasoning lines and the `in_reasoning`
flag. -/
structure JudgeLoopState where
  score_a : Option PyFloat
  score_b : Option PyFloat
  winner : Option String
  reasoning_lines : List String
  in_reasoning : Bool
deriving DecidableEq, Repr

/-- Result dictionary of `parse_judge_response`. -/
structure JudgeResult where
  score_a : Option PyFloat
  score_b : Option PyFloat
  winner : Option String
  reasoning : Option String
deriving DecidableEq, Repr

/-- One iteration of the `for line in lines` loop of
`parse_judge_response` (src/backend/app/services/benchmark_service.py,
lines 72-92). -/
def judgeStep (st : JudgeLoopState) (line0 : String) : JudgeLoopState :=
  let line := pyStrip line0
  if pyStartsWith line "SCORE_A:" then
    match pyFloat? (pyStrip (afterColon1 line)) with
    | some v => { st with score_a := some v }
    | none => st
  else if pyStartsWith line "SCORE_B:" then
    match pyFloat? (pyStrip (afterColon1 line)) with
    | some v => { st with score_b := some v }
    | none => st
  else if pyStartsWith line "WINNER:" then
    { st with winner := some (pyStrip (afterColon1 line)) }
  else if pyStartsWith line "REASONING:" then
    let t := pyStrip (afterColonRest line)
    { st with in_reasoning := true,
              reasoning_lines :=
                st.reasoning_lines ++ (if t = "" then [] else [t]) }
  else if st.in_reasoning then
    { st with reasoning_lines := st.reasoning_lines ++ [line] }
  else st

/-- `parse_judge_response` (src/backend/app/services/benchmark_service.py,
lines 59-96): strip the reply, split on newlines, fold the line loop, then
join the reasoning lines with spaces (`None` when there are none). -/
def parse_judge_response (response : String) : JudgeResult :=
  let lines := pySplit (pyStrip response) '\n'
  let st := lines.foldl judgeStep ⟨none, none, none, [], false⟩
  { score_a := st.score_a
    score_b := st.score_b
    winner := st.winner
    reasoning :=
      if st.reasoning_lines = [] then none
      else some (String.intercalate " " st.reasoning_lines) }

/-- A stripped line starts with one of the four judge markers. -/
def isMarkerLine (l : String) : Bool :=
  pyStartsWith l "SCORE_A:" || pyStartsWith l "SCORE_B:" ||
  pyStartsWith l "WINNER:" || pyStartsWith l "REASONING:"

/-- `JUDGE_SYSTEM_PROMPT` constant
(src/backend/app/services/benchmark_service.py, lines 9-11); note the
trailing space after "models." present in the source. -/
def JUDGE_SYSTEM_PROMPT : String :=
  "You are an expert evaluator comparing the outputs of AI models. \nYour task is to evaluate and score each output on a scale of 1-10 based on specific criteria.\nBe objective and provide detailed reasoning for your scores."

/-- `TRANSCRIPTION_JUDGE_PROMPT.format(model_a=..., model_b=...,
output_a=..., output_b=...)` (src/backend/app/services/benchmark_service.py,
lines 14-32), with the four placeholders substituted. -/
def transcriptionJudgePrompt (model_a model_b output_a output_b : String) : String :=
  "Compare these two transcriptions of the same audio:\n\n**Transcription A (" ++
  model_a ++ "):**\n" ++ output_a ++ "\n\n**Transcription B (" ++ model_b ++
  "):**\n" ++ output_b ++
  "\n\nEvaluate each transcription on these criteria (1-10 scale):\n1. **Accuracy**: How accurate is the transcription likely to be?\n2. **Completeness**: Does it capture all the spoken content?\n3. **Formatting**: Is it well-formatted and readable?\n4. **Punctuation**: Is punctuation appropriate?\n\nProvide your response in this exact format:\nSCORE_A: [number]\nSCORE_B: [number]\nWINNER: [A or B or TIE]\nREASONING: [Your detailed analysis]"

/-- `LLM_JUDGE_PROMPT.format(prompt_type=..., model_a=..., model_b=...,
output_a=..., output_b=...)` (src/backend/app/services/benchmark_service.py,
lines 35-56). -/
def llmJudgePrompt (prompt_type model_a model_b output_a output_b : String) : String :=
  "Compare these two LLM outputs generated from the same input:\n\n**Task:** " ++
  prompt_type ++ "\n\n**Output A (" ++ model_a ++ "):**\n" ++ output_a ++
  "\n\n**Output B (" ++ model_b ++ "):**\n" ++ output_b ++
  "\n\nEvaluate each output on these criteria (1-10 scale):\n1. **Quality**: Overall quality of the response\n2. **Relevance**: How well does it address the task?\n3. **Clarity**: Is it clear and well-organized?\n4. **Completeness**: Does it cover all necessary points?\n5. **Style**: Is the writing style appropriate?\n\nProvide your response in this exact format:\nSCORE_A: [number]\nSCORE_B: [number]\nWINNER: [A or B or TIE]\nREASONING: [Your detailed analysis]"

/-- Message of the CPython `TypeError` raised when slicing `None`
(`text[:3000]` with `text = None`); the exact interpreter wording is
external to the repository and irrelevant to every claim, so it is
modelled by this fixed string. -/
def noneSubscriptMsg : String :=
  "TypeError: NoneType object is not subscriptable"

/-- Message of the CPython `AttributeError` raised by
`parse_judge_response(None)` (`None.strip()`); modelled like
`noneSubscriptMsg`. -/
def noneStripMsg : String :=
  "AttributeError: NoneType object has no attribute strip"

/-- Benchmark results dictionary built by the two benchmark runners:
outputs, optional scores and the judge reasoning string. -/
structure BenchOutcome where
  output_a : String
  output_b : String
  score_a : Option PyFloat
  score_b : Option PyFloat
  judge_reasoning : Option String
deriving DecidableEq, Repr

/-- The services the benchmark orchestrator calls, abstracted:
`transcribe(path, model, language)`, `generate(prompt, model,
system_prompt)` (the dispatcher, with default sampling parameters), and
`build_prompt(prompt_type, transcription)`. -/
structure BenchDeps where
  transcribeFn : String → String → String → Bool × Option String × Option String
  generateFn : String → String → Option String → GenerationResult
  buildPrompt : String → String → String × String

/-- `run_transcription_benchmark`
(src/backend/app/services/benchmark_service.py, lines 99-158): transcribe
with both models sequentially; fail whole comparison if either fails;
otherwise build the judge prompt over the 3000-character truncations, call
the judge, and either report null scores with a judge-failure reasoning or
parse the judge reply. -/
def run_transcription_benchmark (deps : BenchDeps)
    (audio_path model_a model_b language judge_model : String) :
    Bool × Option BenchOutcome × Option String :=
  let ra := deps.transcribeFn audio_path model_a language
  let rb := deps.transcribeFn audio_path model_b language
  if !ra.1 then
    (false, none, some ("Model A (" ++ model_a ++ ") failed: " ++ pyShowOpt ra.2.2))
  else if !rb.1 then
    (false, none, some ("Model B (" ++ model_b ++ ") failed: " ++ pyShowOpt rb.2.2))
  else
    match ra.2.1, rb.2.1 with
    | some text_a, some text_b =>
      let judge_prompt :=
        transcriptionJudgePrompt model_a model_b (pyTake 3000 text_a) (pyTake 3000 text_b)
      let jr := deps.generateFn judge_prompt judge_model (some JUDGE_SYSTEM_PROMPT)
      if !jr.success then
        (true, some ⟨text_a, text_b, none, none,
          some ("Judge failed: " ++ pyShowOpt jr.error)⟩, none)
      else
        match jr.text with
        | none => (false, none, some noneStripMsg)
        | some resp =>
          let scores := parse_judge_response resp
          (true, some ⟨text_a, text_b, scores.score_a, scores.score_b,
            scores.reasoning⟩, none)
    | _, _ => (false, none, some noneSubscriptMsg)

/-- `run_llm_benchmark` (src/backend/app/services/benchmark_service.py,
lines 161-234): build the prompt pair, generate with both models
sequentially, fail if either fails, else judge and parse exactly as the
transcription benchmark does. -/
def run_llm_benchmark (deps : BenchDeps)
    (transcription prompt_type model_a model_b judge_model : String) :
    Bool × Option BenchOutcome × Option String :=
  let sp := deps.buildPrompt prompt_type transcription
  let ra := deps.generateFn sp.2 model_a (some sp.1)
  let rb := deps.generateFn sp.2 model_b (some sp.1)
  if !ra.success then
    (false, none, some ("Model A (" ++ model_a ++ ") failed: " ++ pyShowOpt ra.error))
  else if !rb.success then
    (false, none, some ("Model B (" ++ model_b ++ ") failed: " ++ pyShowOpt rb.error))
  else
    match ra.text, rb.text with
    | some output_a, some output_b =>
      let judge_prompt :=
        llmJudgePrompt prompt_type model_a model_b (pyTake 3000 output_a) (pyTake 3000 output_b)
      let jr := deps.generateFn judge_prompt judge_model (some JUDGE_SYSTEM_PROMPT)
      if !jr.success then
        (true, some ⟨output_a, output_b, none, none,
          some ("Judge failed: " ++ pyShowOpt jr.error)⟩, none)
      else
        match jr.text with
        | none => (false, none, some noneStripMsg)
        | some resp =>
          let scores := parse_judge_response resp
          (true, some ⟨output_a, output_b, scores.score_a, scores.score_b,
            scores.reasoning⟩, none)
    | _, _ => (false, none, some noneSubscriptMsg)

/-- Entry of the static `TRANSCRIPTION_MODELS` table: backend name and the
optional whisper size. -/
structure TransModelConfig where
  backend : String
  size : Option String
deriving DecidableEq, Repr

/-- The static `TRANSCRIPTION_MODELS` table
(src/backend/app/services/transcription/transcription_service.py,
lines 15-29). -/
def TRANSCRIPTION_MODELS : List (String × TransModelConfig) :=
  [ ("whisper-tiny", ⟨"whisper_local", some "tiny"⟩),
    ("whisper-base", ⟨"whisper_local", some "base"⟩),
    ("whisper-small", ⟨"whisper_local", some "small"⟩),
    ("whisper-medium", ⟨"whisper_local", some "medium"⟩),
    ("whisper-large", ⟨"whisper_local", some "large"⟩),
    ("whisper-api", ⟨"whisper_api", none⟩),
    ("google-stt", ⟨"google_stt", none⟩),
    ("whisper-remote-tiny", ⟨"whisper_remote", some "tiny"⟩),
    ("whisper-remote-base", ⟨"whisper_remote", some "base"⟩),
    ("whisper-remote-small", ⟨"whisper_remote", some "small"⟩),
    ("whisper-remote-medium", ⟨"whisper_remote", some "medium"⟩),
    ("whisper-remote-large", ⟨"whisper_remote", some "large"⟩) ]

/-- `TRANSCRIPTION_MODELS.get(model)`. -/
def lookupTranscription (model : String) : Option TransModelConfig :=
  (TRANSCRIPTION_MODELS.find? (fun e => e.1 = model)).map (·.2)

/-- `format_language_code`
(src/backend/app/services/transcription/google_stt.py, lines 96-108). -/
def format_language_code (lang : String) : String :=
  if lang = "en" then "en-US"
  else if lang = "tr" then "tr-TR"
  else if lang = "de" then "de-DE"
  else if lang = "fr" then "fr-FR"
  else if lang = "es" then "es-ES"
  else if lang = "it" then "it-IT"
  else if lang = "ja" then "ja-JP"
  else if lang = "zh" then "zh-CN"
  else lang

/-- What one call of the transcription dispatcher `transcribe` does: which
backend it invokes with which arguments, or which error it returns with no
backend invoked. -/
inductive TranscribeAction
  | callLocal (size path lang : String)
  | remoteNotConfigured
  | callRemote (size path lang : String)
  | callApi (path lang : String)
  | callGoogle (path langCode : String)
  | unknownModel (model : String)
  | unknownBackend (backend : String)
deriving DecidableEq, Repr

/-- Routing logic of `transcribe`
(src/backend/app/services/transcription/transcription_service.py,
lines 32-71).  `remoteConfigured` is the truthiness of
`settings.whisper_remote_url`. -/
def transcribe_action (remoteConfigured : Bool) (path model lang : String) :
    TranscribeAction :=
  match lookupTranscription model with
  | none => .unknownModel model
  | some cfg =>
    if cfg.backend = "whisper_local" then
      .callLocal (cfg.size.getD "base") path lang
    else if cfg.backend = "whisper_remote" then
      if !remoteConfigured then .remoteNotConfigured
      else .callRemote (cfg.size.getD "base") path lang
    else if cfg.backend = "whisper_api" then
      .callApi path lang
    else if cfg.backend = "google_stt" then
      .callGoogle path (format_language_code lang)
    else
      .unknownBackend cfg.backend

/-- The four transcription backend adapters, abstracted as result
functions. -/
structure TransBackends where
  whisperLocal : String → String → String → Bool × Option String × Option String
  whisperRemote : String → String → String → Bool × Option String × Option String
  whisperApi : String → String → Bool × Option String × Option String
  googleStt : String → String → Bool × Option String × Option String

/-- Result of one `TranscribeAction`: the error tuples the dispatcher builds
itself, or the invoked backend's result. -/
def runTranscribeAction (B : TransBackends) :
    TranscribeAction → Bool × Option String × Option String
  | .callLocal size path lang => B.whisperLocal path size lang
  | .remoteNotConfigured =>
    (false, none, some "Whisper remote URL not configured. Set WHISPER_REMOTE_URL in .env")
  | .callRemote size path lang => B.whisperRemote path size lang
  | .callApi path lang => B.whisperApi path lang
  | .callGoogle path langCode => B.googleStt path langCode
  | .unknownModel model => (false, none, some ("Unknown model: " ++ model))
  | .unknownBackend backend => (false, none, some ("Unknown backend: " ++ backend))

/-- The dispatcher `transcribe` as a whole: route, then run. -/
def transcribe (B : TransBackends) (remoteConfigured : Bool)
    (path model lang : String) : Bool × Option String × Option String :=
  runTranscribeAction B (transcribe_action remoteConfigured path model lang)

/-- `pathlib.PurePath(p).name` on POSIX paths: the last nonempty `/`
component. -/
def pathName (p : String) : String :=
  match ((pySplit p '/').filter (fun s => s ≠ "")).getLast? with
  | some n => n
  | none => ""

/-- Index of the last occurrence of `c` in `cs` (Python `rfind`), if any. -/
def rfindIdx (cs : List Char) (c : Char) : Option Nat :=
  match cs.reverse.findIdx? (· = c) with
  | none => none
  | some j => some (cs.length - 1 - j)

/-- `pathlib.PurePath(name).suffix` of a final component: from the last dot
on, unless the dot is first or last. -/
def fileSuffix (name : String) : String :=
  let cs := name.data
  match rfindIdx cs '.' with
  | none => ""
  | some i => if 0 < i ∧ i < cs.length - 1 then String.mk (cs.drop i) else ""

/-- The audio-extension test of `transcribe_parallel`
(src/backend/app/services/transcription/transcription_service.py,
lines 98-99): `Path(path).suffix.lower() in ['.mp3', '.wav', '.m4a',
'.flac', '.ogg']`. -/
def isAudioSuffix (p : String) : Bool :=
  [".mp3", ".wav", ".m4a", ".flac", ".ogg"].contains (pyLower (fileSuffix (pathName p)))

/-- The partition loop of `transcribe_parallel` (lines 94-102): append each
path to the audio or the video list in input order. -/
def partitionAV (paths : List String) : List String × List String :=
  paths.foldl
    (fun acc p => if isAudioSuffix p then (acc.1 ++ [p], acc.2) else (acc.1, acc.2 ++ [p]))
    ([], [])

/-- One `TranscriptionJobResult` dictionary of the parallel runner. -/
structure TranscriptionJobResult where
  path : String
  success : Bool
  text : Option String
  error : Option String
deriving DecidableEq, Repr

/-- `transcribe_parallel`
(src/backend/app/services/transcription/transcription_service.py,
lines 74-123): optionally reorder audio-suffixed paths first (each
partition in input order), then gather one `transcribe` result per path;
`asyncio.gather` returns results in task order. -/
def transcribe_parallel (B : TransBackends) (remoteConfigured : Bool)
    (audio_paths : List String) (model lang : String)
    (prioritize_audio : Bool) : List TranscriptionJobResult :=
  let sorted_paths :=
    if prioritize_audio then (partitionAV audio_paths).1 ++ (partitionAV audio_paths).2
    else audio_paths
  sorted_paths.map (fun path =>
    let r := transcribe B remoteConfigured path model lang
    ⟨path, r.1, r.2.1, r.2.2⟩)

/-- Outcome of one `whisper.load_model(model_size, device=...)` call:
a loaded model (identified by a number), a raised `RuntimeError`, or any
other raised exception. -/
inductive LoadOutcome
  | ok (m : Nat)
  | runtimeErr (msg : String)
  | otherErr (msg : String)
deriving DecidableEq, Repr

/-- Environment of the local whisper adapter: configuration read from
`settings`, availability facts, and the outcomes of the external calls
(`whisper.load_model` keyed by (size, device), `model.transcribe` keyed by
(model, path, language) returning `result.get('text', '')` or a raised
exception message). -/
structure WhisperEnv where
  whisperInstalled : Bool
  cudaAvailable : Bool
  settingsSize : String
  settingsDevice : String
  cacheDirExists : Bool
  load : String → String → LoadOutcome
  fileExists : String → Bool
  transcribeRun : Nat → String → Option String → Except String String

/-- The module-global cache of whisper_local.py (lines 9-10): the loaded
model (`_model`) and the size it was loaded for (`_model_size`). -/
structure WhisperState where
  model : Option Nat
  size : Option String
deriving DecidableEq, Repr

/-- Observable effects of one `load_whisper_model` call: the
`(model_size, device)` pairs passed to `whisper.load_model`, in order, and
whether the on-disk whisper cache directory was removed. -/
structure LoadEffects where
  attempts : List (String × String)
  clearedCacheDir : Bool
deriving DecidableEq, Repr

/-- Device selection of `load_whisper_model` (whisper_local.py,
lines 26-34): a `gpu`/`cuda` setting degrades to `cpu` when CUDA is
unavailable; any other setting is used as-is. -/
def effectiveDevice (env : WhisperEnv) : String :=
  if env.settingsDevice = "gpu" ∨ env.settingsDevice = "cuda" then
    (if env.cudaAvailable then "cuda" else "cpu")
  else env.settingsDevice

/-- The CPU-retry condition of whisper_local.py line 42:
`"gpu" in str(e).lower() or "cuda" in str(e).lower()`. -/
def gpuRelated (msg : String) : Bool :=
  containsSub (pyLower msg).data "gpu".data ||
  containsSub (pyLower msg).data "cuda".data

/-- The cache-miss body of `load_whisper_model` (whisper_local.py,
lines 21-64): import whisper, pick the device, attempt the load; on a
GPU-related `RuntimeError` clear the on-disk cache (when present) and retry
once on CPU; wrap every other failure in
"Failed to load Whisper model: ...". -/
def loadWhisperFresh (env : WhisperEnv) (model_size : String) :
    Except String (Nat × LoadEffects) :=
  if !env.whisperInstalled then
    .error "Whisper is not installed. Run: pip install openai-whisper"
  else
    let device := effectiveDevice env
    match env.load model_size device with
    | .ok m => .ok (m, ⟨[(model_size, device)], false⟩)
    | .runtimeErr e =>
      if gpuRelated e then
        match env.load model_size "cpu" with
        | .ok m => .ok (m, ⟨[(model_size, device), (model_size, "cpu")], env.cacheDirExists⟩)
        | .runtimeErr e2 => .error ("Failed to load Whisper model: " ++ e2)
        | .otherErr e2 => .error ("Failed to load Whisper model: " ++ e2)
      else .error ("Failed to load Whisper model: " ++ e)
    | .otherErr e => .error ("Failed to load Whisper model: " ++ e)

/-- `load_whisper_model` (whisper_local.py, lines 13-66) over the explicit
cache state: default the size from settings, reuse the cached model when
one is loaded and `_model_size` equals the requested size, otherwise load
afresh and overwrite both globals.  Errors model the raised
`RuntimeError`; the state is unchanged on error. -/
def load_whisper_model (env : WhisperEnv) (st : WhisperState)
    (szArg : Option String) : Except String (Nat × WhisperState × LoadEffects) :=
  let model_size := szArg.getD env.settingsSize
  match st.model with
  | some m =>
    if st.size = some model_size then .ok (m, st, ⟨[], false⟩)
    else
      (loadWhisperFresh env model_size).map
        (fun r => (r.1, ⟨some r.1, some model_size⟩, r.2))
  | none =>
    (loadWhisperFresh env model_size).map
      (fun r => (r.1, ⟨some r.1, some model_size⟩, r.2))

/-- `transcribe_with_whisper_local` (whisper_local.py, lines 69-123):
missing file and load failure become error tuples; otherwise run the model
and strip the text, reporting empty text as a failure. Returns the result
tuple together with the cache state after the call. -/
def transcribe_with_whisper_local (env : WhisperEnv) (st : WhisperState)
    (path : String) (szArg : Option String) (lang : Option String) :
    (Bool × Option String × Option String) × WhisperState :=
  if !env.fileExists path then
    ((false, none, some ("Audio file not found: " ++ path)), st)
  else
    match load_whisper_model env st szArg with
    | .error msg => ((false, none, some msg), st)
    | .ok (m, st2, _) =>
      match env.transcribeRun m path lang with
      | .error e => ((false, none, some e), st2)
      | .ok raw =>
        let text := pyStrip raw
        if text = "" then
          ((false, none, some "Transcription resulted in empty text"), st2)
        else ((true, some text, none), st2)

/-- Concrete adapter set used to instantiate dispatcher theorems. -/
def demoAdapters : LLMAdapters where
  openai := fun _ _ _ _ _ => ⟨false, none, none, some "openai backend"⟩
  gemini := fun _ _ _ _ _ => ⟨false, none, none, some "gemini backend"⟩
  ollama := fun p m _ _ _ => ⟨true, some (m ++ ":" ++ p), none, none⟩

/-- Concrete transcription backends used to instantiate dispatcher
theorems. -/
def demoBackends : TransBackends where
  whisperLocal := fun p s _ => (true, some (s ++ "/" ++ p), none)
  whisperRemote := fun _ _ _ => (false, none, some "remote down")
  whisperApi := fun _ _ => (false, none, some "api down")
  googleStt := fun _ _ => (false, none, some "google down")

/-- Concrete benchmark dependencies in which both model calls succeed and
every judge call (model `"J"`) fails. -/
def demoBenchDeps : BenchDeps where
  transcribeFn := fun _ _ _ => (true, some "T", none)
  generateFn := fun _ m _ =>
    if m = "J" then ⟨false, none, none, some "judge down"⟩
    else ⟨true, some "out", none, none⟩
  buildPrompt := fun pt tr => ("sys:" ++ pt, "user:" ++ tr)

/-- Whisper environment in which GPU is configured and available, the CUDA
load raises a GPU-related RuntimeError, and the CPU load succeeds. -/
def envGpuFail : WhisperEnv where
  whisperInstalled := true
  cudaAvailable := true
  settingsSize := "base"
  settingsDevice := "gpu"
  cacheDirExists := true
  load := fun _ d => if d = "cuda" then .runtimeErr "CUDA out of memory" else .ok 5
  fileExists := fun _ => true
  transcribeRun := fun _ _ _ => .ok " hello world "

/-- Whisper environment in which GPU is configured but CUDA is unavailable
and every load succeeds. -/
def envNoCuda : WhisperEnv where
  whisperInstalled := true
  cudaAvailable := false
  settingsSize := "base"
  settingsDevice := "gpu"
  cacheDirExists := false
  load := fun _ _ => .ok 7
  fileExists := fun _ => true
  transcribeRun := fun _ _ _ => .ok "t"

/-- Whisper environment with CUDA configured and available; loads the model
numbered 1 for any size but 2 for size "small". -/
def envCuda : WhisperEnv where
  whisperInstalled := true
  cudaAvailable := true
  settingsSize := "base"
  settingsDevice := "cuda"
  cacheDirExists := false
  load := fun sz _ => if sz = "small" then .ok 2 else .ok 1
  fileExists := fun _ => true
  transcribeRun := fun _ _ _ => .ok "t"

/-- `envCuda` after the deployment configuration switches the device to
CPU; the process-wide cache state survives such a change. -/
def envCpu : WhisperEnv := { envCuda with settingsDevice := "cpu" }

/-- The reasoning the parser extracts from a `REASONING:` marker line `rl`
followed by the marker-free lines `rest`: the stripped text after the first
colon of `rl` (dropped when empty) followed by the stripped lines of
`rest`, joined with single spaces; `none` when nothing accumulates. -/
def reasoningOfTail (rl : String) (rest : List String) : Option String :=
  let t := pyStrip (afterColonRest (pyStrip rl))
  let ls := (if t = "" then [] else [t]) ++ rest.map pyStrip
  if ls = [] then none else some (String.intercalate " " ls)

/-- Two strings of which neither is a prefix of the other can never both be
prefixes of the same string. -/
theorem pyStartsWith_false_of (s p q : String)
    (h : (p.data.isPrefixOf q.data || q.data.isPrefixOf p.data) = false)
    (hp : pyStartsWith s p = true) : pyStartsWith s q = false := by
  unfold pyStartsWith at hp ⊢
  rw [Bool.or_eq_false_iff] at h
  rw [List.isPrefixOf_iff_prefix] at hp
  rw [← Bool.not_eq_true, List.isPrefixOf_iff_prefix]
  intro hq
  rcases List.prefix_or_prefix_of_prefix hp hq with hh | hh
  · exact absurd (List.isPrefixOf_iff_prefix.mpr hh) (by simp [h.1])
  · exact absurd (List.isPrefixOf_iff_prefix.mpr hh) (by simp [h.2])

/-- C1: the claim "success=true implies text is not None" fails on the
code: `generate_with_openai` returns `success=True` with `text=None` when
the provider response carries an empty `choices` list (openai_service.py
line 51 pairs `content=None` with the unconditional `True` of line 58). -/
theorem c1_counterexample :
    (generate_with_openai true true (.resp ⟨[], none⟩)).success = true ∧
    (generate_with_openai true true (.resp ⟨[], none⟩)).text = none := by
  decide

/-- C1 (amended): for the OpenAI and Ollama generation adapters,
`success=false` implies `text=None` and `error` set, and `success=true`
implies `error=None`; but `success=true` does not force `text` to be set
(the OpenAI adapter passes through an absent/null choice content, the
Ollama adapter a JSON-null response field). -/
theorem c1_amended_invariant (akc pkg : Bool) (oc : OpenAICallOutcome)
    (host : String) (olc : OllamaCallOutcome) :
    ((generate_with_openai akc pkg oc).success = false →
      (generate_with_openai akc pkg oc).text = none ∧
      (generate_with_openai akc pkg oc).error ≠ none) ∧
    ((generate_with_openai akc pkg oc).success = true →
      (generate_with_openai akc pkg oc).error = none) ∧
    ((generate_with_ollama host olc).success = false →
      (generate_with_ollama host olc).text = none ∧
      (generate_with_ollama host olc).error ≠ none) ∧
    ((generate_with_ollama host olc).success = true →
      (generate_with_ollama host olc).error = none) := by
  refine ⟨?_, ?_, ?_, ?_⟩ <;>
    cases akc <;> cases pkg <;> cases oc <;> cases olc <;>
    simp [generate_with_openai, generate_with_ollama] <;>
    split <;> simp

/-- Closed instance of `c1_amended_invariant`. -/
theorem c1_amended_witness :
    ((generate_with_openai true true (.exn "boom")).text = none ∧
      (generate_with_openai true true (.exn "boom")).error ≠ none) ∧
    (generate_with_ollama "h" (.httpResp 200 none none none)).error = none :=
  ⟨(c1_amended_invariant true true (.exn "boom") "h" (.httpResp 200 none none none)).1 (by decide),
   (c1_amended_invariant true true (.exn "boom") "h" (.httpResp 200 none none none)).2.2.2 (by decide)⟩

/-- C2: a model identifier absent from the static `LLM_MODELS` table does
not make the dispatcher fail: `generate` routes the call directly to the
Ollama adapter with the identifier as the backend model name
(llm_service.py lines 46-52). -/
theorem c2_unknown_model_routes_to_ollama (A : LLMAdapters)
    (prompt model : String) (sys : Option String) (mt : Nat) (temp : Rat)
    (h : lookupLLM model = none) :
    llm_generate A prompt model sys mt temp =
      A.ollama prompt model sys mt temp := by
  simp [llm_generate, h]

/-- Closed instance of `c2_unknown_model_routes_to_ollama` at the
ad-hoc local identifier "phi3-local". -/
theorem c2_witness :
    llm_generate demoAdapters "hi" "phi3-local" none 4000 (7 / 10) =
      ⟨true, some "phi3-local:hi", none, none⟩ := by
  rw [c2_unknown_model_routes_to_ollama demoAdapters "hi" "phi3-local" none
    4000 (7 / 10) (by decide)]
  rfl

/-- C6: the judge parser on the fully well-formed four-marker reply
returns scores 8.0 and 6.0, winner "A" and the reasoning text. -/
theorem c6_wellformed_judge_reply :
    parse_judge_response
        "SCORE_A: 8\nSCORE_B: 6\nWINNER: A\nREASONING: A was clearer." =
      ⟨some (.finite 8), some (.finite 6), some "A", some "A was clearer."⟩ := by
  decide

/-- C10: a model identifier absent from `TRANSCRIPTION_MODELS` makes
`transcribe` return the "Unknown model: ..." failure tuple without
invoking any backend (transcription_service.py lines 48-50), in contrast
with the permissive LLM dispatcher. -/
theorem c10_unknown_transcription_model (B : TransBackends)
    (rc : Bool) (path model lang : String)
    (h : lookupTranscription model = none) :
    transcribe_action rc path model lang = .unknownModel model ∧
    transcribe B rc path model lang =
      (false, none, some ("Unknown model: " ++ model)) := by
  constructor
  · simp [transcribe_action, h]
  · simp [transcribe, transcribe_action, h, runTranscribeAction]

/-- Closed instance of `c10_unknown_transcription_model`. -/
theorem c10_witness :
    transcribe demoBackends true "a.mp3" "whisper-huge" "en" =
      (false, none, some "Unknown model: whisper-huge") :=
  (c10_unknown_transcription_model demoBackends true "a.mp3" "whisper-huge"
    "en" (by decide)).2

/-- The append-to-audio-or-video loop is filtering: starting from
accumulators `(a, v)` it appends the audio-suffixed paths to `a` and the
rest to `v`, in input order. -/
theorem partitionAV_foldl (paths : List String) (a v : List String) :
    paths.foldl
      (fun acc p =>
        if isAudioSuffix p then (acc.1 ++ [p], acc.2) else (acc.1, acc.2 ++ [p]))
      (a, v) =
    (a ++ paths.filter (fun p => isAudioSuffix p),
     v ++ paths.filter (fun p => !isAudioSuffix p)) := by
  induction paths generalizing a v with
  | nil => simp
  | cons p ps ih =>
    simp only [List.foldl_cons, List.filter_cons]
    by_cases h : isAudioSuffix p
    · simp [h, ih]
    · simp [h, ih]

/-- Mapping the job-result constructor over a path list and projecting the
path back is the identity. -/
theorem map_path_mk (B : TransBackends) (rc : Bool) (model lang : String)
    (l : List String) :
    (l.map (fun path =>
      (⟨path, (transcribe B rc path model lang).1,
        (transcribe B rc path model lang).2.1,
        (transcribe B rc path model lang).2.2⟩ : TranscriptionJobResult))).map
      TranscriptionJobResult.path = l := by
  induction l with
  | nil => rfl
  | cons p ps ih => simp [ih]

/-- C3: with `prioritize_audio=true`, `transcribe_parallel` returns its
results in exactly the prioritized order: the audio-suffixed inputs first,
then the others, each subset in the caller's input order; on the inputs
["v.mp4", "a.mp3", "b.wav"] the result order is [a.mp3, b.wav, v.mp4], and
the empty input yields the empty result list. -/
theorem c3_audio_first_ordering (B : TransBackends) (rc : Bool)
    (model lang : String) :
    (∀ paths : List String,
      (transcribe_parallel B rc paths model lang true).map
          TranscriptionJobResult.path =
        paths.filter (fun p => isAudioSuffix p) ++
        paths.filter (fun p => !isAudioSuffix p)) ∧
    (transcribe_parallel B rc ["v.mp4", "a.mp3", "b.wav"] model lang true).map
        TranscriptionJobResult.path = ["a.mp3", "b.wav", "v.mp4"] ∧
    transcribe_parallel B rc [] model lang true = [] := by
  have key : ∀ paths : List String,
      (transcribe_parallel B rc paths model lang true).map
          TranscriptionJobResult.path =
        paths.filter (fun p => isAudioSuffix p) ++
        paths.filter (fun p => !isAudioSuffix p) := by
    intro paths
    have hp : partitionAV paths =
        (paths.filter (fun p => isAudioSuffix p),
         paths.filter (fun p => !isAudioSuffix p)) := by
      unfold partitionAV
      rw [partitionAV_foldl]
      simp
    simp only [transcribe_parallel, hp, if_true, List.map_append]
    rw [map_path_mk, map_path_mk]
  refine ⟨key, ?_, rfl⟩
  rw [key ["v.mp4", "a.mp3", "b.wav"]]
  decide

/-- A `SCORE_A:` line whose value does not parse as a float leaves the
whole loop state unchanged (the except-pass of benchmark_service.py lines
75-78). -/
theorem judgeStep_score_a_fail (st : JudgeLoopState) (l : String)
    (hA : pyStartsWith (pyStrip l) "SCORE_A:" = true)
    (hf : pyFloat? (pyStrip (afterColon1 (pyStrip l))) = none) :
    judgeStep st l = st := by
  simp [judgeStep, hA, hf]

/-- A `SCORE_B:` line whose value does not parse as a float leaves the
whole loop state unchanged. -/
theorem judgeStep_score_b_fail (st : JudgeLoopState) (l : String)
    (hB : pyStartsWith (pyStrip l) "SCORE_B:" = true)
    (hf : pyFloat? (pyStrip (afterColon1 (pyStrip l))) = none) :
    judgeStep st l = st := by
  have hA := pyStartsWith_false_of (pyStrip l) "SCORE_B:" "SCORE_A:" (by decide) hB
  simp [judgeStep, hA, hB, hf]

/-- A line matching no marker is a no-op while `in_reasoning` is off. -/
theorem judgeStep_no_marker (st : JudgeLoopState) (l : String)
    (h : isMarkerLine (pyStrip l) = false)
    (hin : st.in_reasoning = false) :
    judgeStep st l = st := by
  simp only [isMarkerLine, Bool.or_eq_false_iff] at h
  obtain ⟨⟨⟨h1, h2⟩, h3⟩, h4⟩ := h
  simp [judgeStep, h1, h2, h3, h4, hin]

/-- Folding the line loop over marker-free lines from a state with
`in_reasoning` off changes nothing. -/
theorem foldl_no_marker (lines : List String) (st : JudgeLoopState)
    (h : ∀ l ∈ lines, isMarkerLine (pyStrip l) = false)
    (hin : st.in_reasoning = false) :
    lines.foldl judgeStep st = st := by
  induction lines with
  | nil => rfl
  | cons l ls ih =>
    rw [List.foldl_cons, judgeStep_no_marker st l (h l (by simp)) hin]
    exact ih (fun x hx => h x (by simp [hx]))

/-- C5: the judge parser degrades instead of failing: a score line whose
value fails float-parsing leaves that score null (both `SCORE_A:` and
`SCORE_B:`), and a reply in which no line carries any of the four markers
parses to the all-null result.  (The parser is a total Lean function, so
"never raises" holds by construction.) -/
theorem c5_tolerant_judge_parsing :
    (∀ (st : JudgeLoopState) (l : String),
      pyStartsWith (pyStrip l) "SCORE_A:" = true →
      pyFloat? (pyStrip (afterColon1 (pyStrip l))) = none →
      judgeStep st l = st) ∧
    (∀ (st : JudgeLoopState) (l : String),
      pyStartsWith (pyStrip l) "SCORE_B:" = true →
      pyFloat? (pyStrip (afterColon1 (pyStrip l))) = none →
      judgeStep st l = st) ∧
    (∀ s : String,
      (∀ l ∈ pySplit (pyStrip s) '\n', isMarkerLine (pyStrip l) = false) →
      parse_judge_response s = ⟨none, none, none, none⟩) := by
  refine ⟨judgeStep_score_a_fail, judgeStep_score_b_fail, ?_⟩
  intro s h
  have hfold := foldl_no_marker (pySplit (pyStrip s) '\n')
    ⟨none, none, none, [], false⟩ h rfl
  simp [parse_judge_response, hfold]

/-- Closed instance of `c5_tolerant_judge_parsing`. -/
theorem c5_witness :
    judgeStep ⟨none, none, none, [], false⟩ "SCORE_A: banana" =
      ⟨none, none, none, [], false⟩ ∧
    judgeStep ⟨none, none, none, [], false⟩ "SCORE_B: banana" =
      ⟨none, none, none, [], false⟩ ∧
    parse_judge_response "no markers at all\njust text" =
      ⟨none, none, none, none⟩ :=
  ⟨c5_tolerant_judge_parsing.1 _ _ (by decide) (by decide),
   c5_tolerant_judge_parsing.2.1 _ _ (by decide) (by decide),
   c5_tolerant_judge_parsing.2.2 _ (by decide)⟩

/-- C7: the claim fails on the code: in the reply
"REASONING: good\nSCORE_A: 8" the text following the `REASONING:` marker
includes the line "SCORE_A: 8", but the parser's elif-chain consumes any
later marker-shaped line as a marker (benchmark_service.py lines 72-92),
so the returned reasoning is only "good", not the concatenation
"good SCORE_A: 8" of all following text. -/
theorem c7_counterexample :
    (parse_judge_response "REASONING: good\nSCORE_A: 8").reasoning =
      some "good" ∧
    (parse_judge_response "REASONING: good\nSCORE_A: 8").reasoning ≠
      some "good SCORE_A: 8" := by
  decide

/-- A non-`REASONING:` line neither turns `in_reasoning` on nor touches
the accumulated reasoning lines while `in_reasoning` is off. -/
theorem judgeStep_keeps_reasoning (st : JudgeLoopState) (l : String)
    (hR : pyStartsWith (pyStrip l) "REASONING:" = false)
    (hin : st.in_reasoning = false) :
    (judgeStep st l).reasoning_lines = st.reasoning_lines ∧
    (judgeStep st l).in_reasoning = false := by
  by_cases hA : pyStartsWith (pyStrip l) "SCORE_A:"
  · cases hf : pyFloat? (pyStrip (afterColon1 (pyStrip l))) <;>
      simp [judgeStep, hA, hf, hin]
  · by_cases hB : pyStartsWith (pyStrip l) "SCORE_B:"
    · cases hf : pyFloat? (pyStrip (afterColon1 (pyStrip l))) <;>
        simp [judgeStep, hA, hB, hf, hin]
    · by_cases hW : pyStartsWith (pyStrip l) "WINNER:"
      · simp [judgeStep, hA, hB, hW, hin]
      · simp [judgeStep, hA, hB, hW, hR, hin]

/-- Folding the loop over `REASONING:`-free lines keeps `in_reasoning` off
and the reasoning lines untouched. -/
theorem foldl_keeps_reasoning (pre : List String) (st : JudgeLoopState)
    (h : ∀ l ∈ pre, pyStartsWith (pyStrip l) "REASONING:" = false)
    (hin : st.in_reasoning = false) :
    (pre.foldl judgeStep st).reasoning_lines = st.reasoning_lines ∧
    (pre.foldl judgeStep st).in_reasoning = false := by
  induction pre generalizing st with
  | nil => exact ⟨rfl, hin⟩
  | cons l ls ih =>
    rw [List.foldl_cons]
    obtain ⟨h1, h2⟩ := judgeStep_keeps_reasoning st l (h l (by simp)) hin
    obtain ⟨g1, g2⟩ := ih (judgeStep st l) (fun x hx => h x (by simp [hx])) h2
    exact ⟨g1.trans h1, g2⟩

/-- A `REASONING:` line turns `in_reasoning` on and appends the non-empty
stripped text after its first colon. -/
theorem judgeStep_reasoning_marker (st : JudgeLoopState) (l : String)
    (hR : pyStartsWith (pyStrip l) "REASONING:" = true) :
    judgeStep st l =
      { st with in_reasoning := true,
                reasoning_lines := st.reasoning_lines ++
                  (if pyStrip (afterColonRest (pyStrip l)) = "" then []
                   else [pyStrip (afterColonRest (pyStrip l))]) } := by
  have hA := pyStartsWith_false_of (pyStrip l) "REASONING:" "SCORE_A:" (by decide) hR
  have hB := pyStartsWith_false_of (pyStrip l) "REASONING:" "SCORE_B:" (by decide) hR
  have hW := pyStartsWith_false_of (pyStrip l) "REASONING:" "WINNER:" (by decide) hR
  simp [judgeStep, hA, hB, hW, hR]

/-- While `in_reasoning` is on, a marker-free line is appended stripped. -/
theorem judgeStep_in_reasoning_plain (st : JudgeLoopState) (l : String)
    (h : isMarkerLine (pyStrip l) = false)
    (hin : st.in_reasoning = true) :
    judgeStep st l = { st with reasoning_lines := st.reasoning_lines ++ [pyStrip l] } := by
  simp only [isMarkerLine, Bool.or_eq_false_iff] at h
  obtain ⟨⟨⟨h1, h2⟩, h3⟩, h4⟩ := h
  simp [judgeStep, h1, h2, h3, h4, hin]

/-- Folding the loop over marker-free lines while `in_reasoning` is on
appends every line, stripped, in order. -/
theorem foldl_in_reasoning (rest : List String) (st : JudgeLoopState)
    (h : ∀ l ∈ rest, isMarkerLine (pyStrip l) = false)
    (hin : st.in_reasoning = true) :
    (rest.foldl judgeStep st).reasoning_lines =
      st.reasoning_lines ++ rest.map pyStrip := by
  induction rest generalizing st with
  | nil => simp
  | cons l ls ih =>
    rw [List.foldl_cons, judgeStep_in_reasoning_plain st l (h l (by simp)) hin]
    rw [ih { st with reasoning_lines := st.reasoning_lines ++ [pyStrip l] }
      (fun x hx => h x (by simp [hx])) hin]
    simp

/-- C7 (amended): all text following the first `REASONING:` marker is
concatenated into the reasoning string only for the following lines that do
not themselves start with one of the four markers; such lines are stripped
and joined with single spaces after the marker line's own post-colon text
(dropped when empty), and an empty accumulation yields `None`. -/
theorem c7_amended_reasoning_concat (s rl : String) (pre rest : List String)
    (hsplit : pySplit (pyStrip s) '\n' = pre ++ rl :: rest)
    (hrl : pyStartsWith (pyStrip rl) "REASONING:" = true)
    (hpre : ∀ l ∈ pre, pyStartsWith (pyStrip l) "REASONING:" = false)
    (hrest : ∀ l ∈ rest, isMarkerLine (pyStrip l) = false) :
    (parse_judge_response s).reasoning = reasoningOfTail rl rest := by
  have main :
      ((pre ++ rl :: rest).foldl judgeStep
        (⟨none, none, none, [], false⟩ : JudgeLoopState)).reasoning_lines =
        (if pyStrip (afterColonRest (pyStrip rl)) = "" then []
         else [pyStrip (afterColonRest (pyStrip rl))]) ++ rest.map pyStrip := by
    rw [List.foldl_append]
    obtain ⟨h1, h2⟩ :=
      foldl_keeps_reasoning pre ⟨none, none, none, [], false⟩ hpre rfl
    rw [List.foldl_cons, judgeStep_reasoning_marker _ rl hrl]
    rw [foldl_in_reasoning rest _ hrest rfl]
    simp [h1]
  simp only [parse_judge_response, hsplit, reasoningOfTail]
  rw [main]

/-- Closed instance of `c7_amended_reasoning_concat`. -/
theorem c7_witness :
    (parse_judge_response "SCORE_A: 8\nREASONING: ok\ntail line").reasoning =
      some "ok tail line" := by
  rw [c7_amended_reasoning_concat "SCORE_A: 8\nREASONING: ok\ntail line"
    "REASONING: ok" ["SCORE_A: 8"] ["tail line"] (by decide) (by decide)
    (by decide) (by decide)]
  decide

/-- C4: when both model calls succeed but the judge call fails, both
benchmark runners return overall success with both outputs, null scores
and a reasoning string carrying the judge failure detail
(benchmark_service.py lines 136-144 and 213-220). -/
theorem c4_judge_failure_still_ok (deps : BenchDeps)
    (path ma mb lang transcription ptype jm ta tb ej oa ob : String)
    (e1 e2 jt1 jt2 : Option String) (ju1 ju2 ua ub : Option TokenUsage)
    (ea eb : Option String) :
    (deps.transcribeFn path ma lang = (true, some ta, e1) →
     deps.transcribeFn path mb lang = (true, some tb, e2) →
     deps.generateFn
         (transcriptionJudgePrompt ma mb (pyTake 3000 ta) (pyTake 3000 tb))
         jm (some JUDGE_SYSTEM_PROMPT) = ⟨false, jt1, ju1, some ej⟩ →
     run_transcription_benchmark deps path ma mb lang jm =
       (true, some ⟨ta, tb, none, none, some ("Judge failed: " ++ ej)⟩, none)) ∧
    (deps.generateFn (deps.buildPrompt ptype transcription).2 ma
         (some (deps.buildPrompt ptype transcription).1) = ⟨true, some oa, ua, ea⟩ →
     deps.generateFn (deps.buildPrompt ptype transcription).2 mb
         (some (deps.buildPrompt ptype transcription).1) = ⟨true, some ob, ub, eb⟩ →
     deps.generateFn (llmJudgePrompt ptype ma mb (pyTake 3000 oa) (pyTake 3000 ob))
         jm (some JUDGE_SYSTEM_PROMPT) = ⟨false, jt2, ju2, some ej⟩ →
     run_llm_benchmark deps transcription ptype ma mb jm =
       (true, some ⟨oa, ob, none, none, some ("Judge failed: " ++ ej)⟩, none)) := by
  constructor
  · intro h1 h2 h3
    simp [run_transcription_benchmark, h1, h2, h3, pyShowOpt]
  · intro h1 h2 h3
    simp [run_llm_benchmark, h1, h2, h3, pyShowOpt]

/-- Closed instance of `c4_judge_failure_still_ok` on `demoBenchDeps`. -/
theorem c4_witness :
    run_transcription_benchmark demoBenchDeps "f.mp3" "A" "B" "en" "J" =
      (true, some ⟨"T", "T", none, none, some "Judge failed: judge down"⟩, none) ∧
    run_llm_benchmark demoBenchDeps "tr" "summary" "A" "B" "J" =
      (true, some ⟨"out", "out", none, none, some "Judge failed: judge down"⟩, none) :=
  ⟨(c4_judge_failure_still_ok demoBenchDeps "f.mp3" "A" "B" "en" "tr" "summary"
      "J" "T" "T" "judge down" "out" "out" none none none none none none none
      none none none).1 rfl rfl (by decide),
   (c4_judge_failure_still_ok demoBenchDeps "f.mp3" "A" "B" "en" "tr" "summary"
      "J" "T" "T" "judge down" "out" "out" none none none none none none none
      none none none).2 (by decide) (by decide) (by decide)⟩

/-- C8: (1) a GPU request with CUDA unavailable degrades the device to CPU
without raising (the fallback is not an error path, and a successful CPU
load yields a normal single-attempt success); (2) a GPU-related
RuntimeError from the first load triggers exactly one automatic CPU retry
after clearing the on-disk model cache; (3) a GPU load failure followed by
a successful CPU load makes the whole transcription call return
`success=true` with no exception surfaced. -/
theorem c8_gpu_fallback (env : WhisperEnv) (st : WhisperState)
    (sz path raw e : String) (lang : Option String) (m m2 : Nat) :
    ((env.settingsDevice = "gpu" ∨ env.settingsDevice = "cuda") →
     env.cudaAvailable = false →
     effectiveDevice env = "cpu" ∧
     (env.whisperInstalled = true → env.load sz "cpu" = .ok m →
      loadWhisperFresh env sz = .ok (m, ⟨[(sz, "cpu")], false⟩))) ∧
    (env.whisperInstalled = true →
     env.load sz (effectiveDevice env) = .runtimeErr e →
     gpuRelated e = true →
     env.cacheDirExists = true →
     env.load sz "cpu" = .ok m2 →
     loadWhisperFresh env sz =
       .ok (m2, ⟨[(sz, effectiveDevice env), (sz, "cpu")], true⟩)) ∧
    (env.whisperInstalled = true →
     st.model = none →
     env.fileExists path = true →
     env.load sz (effectiveDevice env) = .runtimeErr e →
     gpuRelated e = true →
     env.load sz "cpu" = .ok m2 →
     env.transcribeRun m2 path lang = .ok raw →
     pyStrip raw ≠ "" →
     (transcribe_with_whisper_local env st path (some sz) lang).1 =
       (true, some (pyStrip raw), none)) := by
  refine ⟨?_, ?_, ?_⟩
  · intro hdev hcuda
    have hd : effectiveDevice env = "cpu" := by
      rcases hdev with h | h <;> simp [effectiveDevice, h, hcuda]
    refine ⟨hd, ?_⟩
    intro hin hload
    simp [loadWhisperFresh, hin, hd, hload]
  · intro hin hload hgpu hdir hcpu
    simp [loadWhisperFresh, hin, hload, hgpu, hcpu, hdir]
  · intro hin hmodel hfile hload hgpu hcpu hrun hne
    have hfresh : loadWhisperFresh env sz =
        .ok (m2, ⟨[(sz, effectiveDevice env), (sz, "cpu")], env.cacheDirExists⟩) := by
      simp [loadWhisperFresh, hin, hload, hgpu, hcpu]
    simp [transcribe_with_whisper_local, hfile, load_whisper_model, hmodel,
      hfresh, Except.map, hrun, hne]

/-- Closed instance of `c8_gpu_fallback` on `envGpuFail` / `envNoCuda`. -/
theorem c8_witness :
    (effectiveDevice envNoCuda = "cpu" ∧
     loadWhisperFresh envNoCuda "base" = .ok (7, ⟨[("base", "cpu")], false⟩)) ∧
    loadWhisperFresh envGpuFail "base" =
      .ok (5, ⟨[("base", "cuda"), ("base", "cpu")], true⟩) ∧
    (transcribe_with_whisper_local envGpuFail ⟨none, none⟩ "a.mp3"
        (some "base") none).1 = (true, some "hello world", none) :=
  ⟨⟨((c8_gpu_fallback envNoCuda ⟨none, none⟩ "base" "a.mp3" "t" "x" none 7 7).1
        (Or.inl rfl) rfl).1,
    ((c8_gpu_fallback envNoCuda ⟨none, none⟩ "base" "a.mp3" "t" "x" none 7 7).1
        (Or.inl rfl) rfl).2 rfl (by decide)⟩,
   (c8_gpu_fallback envGpuFail ⟨none, none⟩ "base" "a.mp3" " hello world "
        "CUDA out of memory" none 5 5).2.1 rfl (by decide) (by decide) rfl
        (by decide),
   (c8_gpu_fallback envGpuFail ⟨none, none⟩ "base" "a.mp3" " hello world "
        "CUDA out of memory" none 5 5).2.2 rfl rfl rfl (by decide) (by decide)
        (by decide) rfl (by decide)⟩

/-- C9: the claim fails on the code: the cache key is the model size alone
(whisper_local.py line 20 tests only `_model is None or _model_size !=
model_size`), so (second conjunct) an entry loaded under a CUDA
configuration is reused, with no load call, by a later call under a CPU
configuration; and (third conjunct) loading a different size replaces the
cached entry, so it is not immune to eviction. -/
theorem c9_counterexample :
    load_whisper_model envCuda ⟨none, none⟩ (some "base") =
      .ok (1, ⟨some 1, some "base"⟩, ⟨[("base", "cuda")], false⟩) ∧
    load_whisper_model envCpu ⟨some 1, some "base"⟩ (some "base") =
      .ok (1, ⟨some 1, some "base"⟩, ⟨[], false⟩) ∧
    load_whisper_model envCpu ⟨some 1, some "base"⟩ (some "small") =
      .ok (2, ⟨some 2, some "small"⟩, ⟨[("small", "cpu")], false⟩) :=
  ⟨rfl, rfl, rfl⟩

/-- C9 (amended): the process-wide cache holds a single entry keyed by
model size only: a loaded entry is reused — with no load attempt — by any
call requesting the cached size, whatever device the configuration now
names; it persists across calls; and a call for a different size evicts
and replaces it. -/
theorem c9_amended_cache_by_size (env : WhisperEnv) (st : WhisperState)
    (m m2 : Nat) (sz sz2 : String) :
    (st.model = some m → st.size = some sz →
     load_whisper_model env st (some sz) = .ok (m, st, ⟨[], false⟩)) ∧
    (st.size ≠ some sz2 → env.whisperInstalled = true →
     env.load sz2 (effectiveDevice env) = .ok m2 →
     load_whisper_model env st (some sz2) =
       .ok (m2, ⟨some m2, some sz2⟩, ⟨[(sz2, effectiveDevice env)], false⟩)) := by
  constructor
  · intro hm hsz
    unfold load_whisper_model
    rw [hm]
    simp [hsz]
  · intro hsz hin hload
    have hfresh : loadWhisperFresh env sz2 =
        .ok (m2, ⟨[(sz2, effectiveDevice env)], false⟩) := by
      simp [loadWhisperFresh, hin, hload]
    unfold load_whisper_model
    cases hm : st.model with
    | none => simp [hfresh, Except.map]
    | some m3 => simp [hsz, hfresh, Except.map]

/-- Closed instance of `c9_amended_cache_by_size`. -/
theorem c9_amended_witness :
    load_whisper_model envCpu ⟨some 1, some "base"⟩ (some "base") =
      .ok (1, ⟨some 1, some "base"⟩, ⟨[], false⟩) ∧
    load_whisper_model envCpu ⟨some 1, some "base"⟩ (some "small") =
      .ok (2, ⟨some 2, some "small"⟩, ⟨[("small", "cpu")], false⟩) :=
  ⟨(c9_amended_cache_by_size envCpu ⟨some 1, some "base"⟩ 1 2 "base" "small").1
      rfl rfl,
   (c9_amended_cache_by_size envCpu ⟨some 1, some "base"⟩ 1 2 "base" "small").2
      (by decide) rfl (by decide)⟩
